import Mathlib

/-!
Shallow embedding of the content-resolution and metadata-synthesis pipeline
of the blog repository (jorgeolive/blog).

Sources embedded:
- `src/pages/posts/_slug.vue` (two variants separated in the file): the
  `asyncData` resolver and the two `head()` metadata synthesizers;
- `src/components/PostPreview.vue`: the `tags` computed property
  (`this.post.tags?.split(";") ?? []`), the `formatDate` method
  (`new Date(date).toLocaleDateString('en', {year:'numeric', month:'long',
  day:'numeric'})`) and the preview template.

JavaScript values that may be `null`/`undefined` are embedded as `Option`;
a JS string is embedded as Lean `String`, with single-character `split`
modelled on the character sequence (`String.toList` / `List.splitOn`),
which agrees with `String.prototype.split` for a one-character separator.
-/

namespace Blog

/-- A raw document: front-matter fields of a post as the components read
them. Optional front-matter fields are `Option`; `slug`, `title` and
`createdAt` are treated as always present, matching the document schema. -/
structure Post where
  slug : String
  title : String
  description : Option String
  htmlMetadata : Option String
  image : Option String
  tags : Option String
  date : Option String
  createdAt : String
deriving DecidableEq, Repr

/-! ## Tag Parser (`tags` computed property of PostPreview.vue) -/

/-- Embedding of the computed property `this.post.tags?.split(";") ?? []`:
optional chaining on a `null`/`undefined` tags field short-circuits and the
nullish-coalescing operator supplies `[]`; otherwise the string is split on
the `;` character. Each tag is the character sequence of a JS string. -/
def parseTags (tags : Option String) : List (List Char) :=
  match tags with
  | none => []
  | some s => s.toList.splitOn ';'

/-! ## Date Formatter (`formatDate` method of PostPreview.vue) -/

/-- A calendar date as held by a JS `Date` whose time value is not NaN. -/
structure JsDate where
  year : Nat
  month : Nat
  day : Nat
deriving DecidableEq, Repr

/-- Value of a non-empty all-digit character sequence, `none` otherwise. -/
def digitsVal (l : List Char) : Option Nat :=
  if l.isEmpty then none
  else if l.all Char.isDigit then
    some (l.foldl (fun n c => 10 * n + (c.toNat - 48)) 0)
  else none

def isLeapYear (y : Nat) : Bool :=
  (y % 4 == 0 && y % 100 != 0) || y % 400 == 0

def daysInMonth (y m : Nat) : Nat :=
  if m = 2 then (if isLeapYear y then 29 else 28)
  else if m = 4 ∨ m = 6 ∨ m = 9 ∨ m = 11 then 30
  else 31

/-- Modelled from the spec and the ECMA-262 runtime (not code of this
repository): the date parsing performed by `new Date(date)` for ISO
`YYYY-MM-DD` date strings. Input in any other shape, or with out-of-range
components, yields `none`, standing for a `Date` holding the NaN time
value (an Invalid Date). -/
def jsDateParse (s : String) : Option JsDate :=
  match s.toList.splitOn '-' with
  | [ys, ms, ds] =>
    if ys.length = 4 ∧ ms.length = 2 ∧ ds.length = 2 then
      match digitsVal ys, digitsVal ms, digitsVal ds with
      | some y, some m, some d =>
        if 1 ≤ m ∧ m ≤ 12 ∧ 1 ≤ d ∧ d ≤ daysInMonth y m then
          some ⟨y, m, d⟩
        else none
      | _, _, _ => none
    else none
  | _ => none

def monthLongName : Nat → String
  | 1 => "January"
  | 2 => "February"
  | 3 => "March"
  | 4 => "April"
  | 5 => "May"
  | 6 => "June"
  | 7 => "July"
  | 8 => "August"
  | 9 => "September"
  | 10 => "October"
  | 11 => "November"
  | 12 => "December"
  | _ => ""

/-- Embedding of `formatDate` from PostPreview.vue:
`new Date(date).toLocaleDateString('en', {year:'numeric', month:'long',
day:'numeric'})`. On an unparseable input the `Date` holds NaN and
`toLocaleDateString` returns the string `"Invalid Date"`; on a valid date
the `'en'` long form is `<month name> <day>, <year>`. -/
def formatDate (date : String) : String :=
  match jsDateParse date with
  | none => "Invalid Date"
  | some d => monthLongName d.month ++ " " ++ toString d.day ++ ", " ++ toString d.year

/-! ## Metadata Synthesizer (the two `head()` functions of _slug.vue) -/

/-- One entry of the `meta` array returned by `head()`. Each JS object
literal populates a subset of the attributes; the others are absent
(`none`). A `content` of `none` embeds a JS `undefined` content value. -/
structure MetaEntry where
  charset : Option String
  hid : Option String
  name : Option String
  property : Option String
  content : Option String
deriving DecidableEq, Repr

/-- Entry of the shape `{ charset: v }`. -/
def charsetMeta (v : String) : MetaEntry :=
  ⟨some v, none, none, none, none⟩

/-- Entry of the shape `{ name: n, content: c }`. -/
def namedMeta (n : String) (c : Option String) : MetaEntry :=
  ⟨none, none, some n, none, c⟩

/-- Entry of the shape `{ hid: h, name: n, content: c }`. -/
def hidNameMeta (h : String) (n : String) (c : Option String) : MetaEntry :=
  ⟨none, some h, some n, none, c⟩

/-- Entry of the shape `{ hid: h, property: p, content: c }`. -/
def hidPropMeta (h : String) (p : String) (c : Option String) : MetaEntry :=
  ⟨none, some h, none, some p, c⟩

/-- One entry of the `link` array returned by `head()`. -/
structure LinkEntry where
  rel : String
  type : String
  href : String
deriving DecidableEq, Repr

/-- The object returned by `head()`: page title, meta entries in order,
and link entries. -/
structure HeadBlock where
  title : String
  meta : List MetaEntry
  link : List LinkEntry
deriving DecidableEq, Repr

/-- JS template-literal interpolation of a possibly-`undefined` value:
`undefined` prints as the string `"undefined"`. -/
def jsInterp : Option String → String
  | none => "undefined"
  | some s => s

/-- The fixed site base URL appearing in the template literals of
_slug.vue (`https://jorge-olive.net/...`). -/
def siteBaseUrl : String := "https://jorge-olive.net"

def faviconLink : LinkEntry :=
  ⟨"icon", "image/x-icon", "/favicon.ico"⟩

/-- Embedding of `head()` of the full detail-page variant of
src/pages/posts/_slug.vue (the variant with Open-Graph image, Twitter url
/ image and card entries). `post` is `this.post`; `slug` is
`this.$route.params.slug`. Entry order and attribute choice follow the
source object literals. -/
def headFull (post : Post) (slug : String) : HeadBlock :=
  { title := "jorge-olive.net - " ++ post.title
    meta :=
      [ charsetMeta "utf-8"
      , namedMeta "viewport" (some "width=device-width, initial-scale=1")
      , hidPropMeta "og:title" "og:title" (some post.title)
      , hidPropMeta "og:description" "og:description" post.htmlMetadata
      , hidPropMeta "og:image" "og:image"
          (some (siteBaseUrl ++ "/" ++ jsInterp post.image))
      , hidNameMeta "twitter:url" "twitter:url"
          (some (siteBaseUrl ++ "/posts/" ++ slug))
      , hidNameMeta "twitter:title" "twitter:title" (some post.title)
      , hidNameMeta "twitter:description" "twitter:description" post.htmlMetadata
      , hidNameMeta "twitter:image" "twitter:image"
          (some (siteBaseUrl ++ "/" ++ jsInterp post.image))
      , hidNameMeta "twitter:card" "twitter:card" (some "summary_large_image") ]
    link := [faviconLink] }

/-- Embedding of `head()` of the reduced-metadata detail-page variant of
src/pages/posts/_slug.vue: only description and title entries, and the
plain description entry's `name` attribute is `this.post.title`. -/
def headReduced (post : Post) : HeadBlock :=
  { title := "jorge-olive.net - " ++ post.title
    meta :=
      [ charsetMeta "utf-8"
      , namedMeta "viewport" (some "width=device-width, initial-scale=1")
      , hidNameMeta "description" post.title post.htmlMetadata
      , hidPropMeta "og:title" "og:title" (some post.title)
      , hidPropMeta "og:description" "og:description" post.htmlMetadata
      , hidNameMeta "twitter:title" "twitter:title" (some post.title)
      , hidNameMeta "twitter:description" "twitter:description" post.htmlMetadata ]
    link := [faviconLink] }

/-- First meta entry carrying the given `hid`, if any. -/
def findByHid (h : String) (ms : List MetaEntry) : Option MetaEntry :=
  ms.find? (fun m => m.hid == some h)

/-- Content of the meta entry with the given `hid`: `none` when the entry
is absent or its content is `undefined`. -/
def metaContentAt (h : String) (ms : List MetaEntry) : Option String :=
  (findByHid h ms).bind (fun m => m.content)

/-- Modelled from the spec: the claimed two-level description fallback —
`doc.htmlMetadata` when present, else `doc.description` when present, else
the empty string. Stated for comparison with the synthesizers above. -/
def specDescriptionFallback (doc : Post) : String :=
  match doc.htmlMetadata with
  | some h => h
  | none =>
    match doc.description with
    | some d => d
    | none => ""

/-! ## Content Resolver (`asyncData` of _slug.vue) -/

/-- Ways a `$content(...).fetch()` promise can reject: the document is
missing, or the store itself fails (unreachable / corrupt document). -/
inductive FetchError
  | notFound
  | storeFailure
deriving DecidableEq, Repr

/-- The argument `asyncData` passes to Nuxt's `error()` callback; calling
it puts the whole page into an error state (no partial render). -/
structure NuxtError where
  statusCode : Nat
  message : String
deriving DecidableEq, Repr

/-- Embedding of `asyncData({ $content, params, error })` of _slug.vue
(identical in both variants): fetch `posts/<slug>` from the Document
Store; the attached `.catch` handler ignores the rejection reason and
calls `error({ statusCode: 404, message: "Página no encontrada" })`,
which surfaces as the page-level error state. -/
def asyncData (store : String → Except FetchError Post) (slug : String) :
    Except NuxtError Post :=
  match store ("posts/" ++ slug) with
  | Except.ok p => Except.ok p
  | Except.error _ => Except.error ⟨404, "Página no encontrada"⟩

/-- A Document Store with no documents: every fetch rejects as not found. -/
def emptyStore : String → Except FetchError Post :=
  fun _ => Except.error FetchError.notFound

/-- A Document Store whose every fetch rejects with a store-level failure. -/
def failingStore : String → Except FetchError Post :=
  fun _ => Except.error FetchError.storeFailure

/-! ## Preview rendering (template of PostPreview.vue) -/

/-- Vue text interpolation of a possibly-`undefined` field: `undefined`
renders as the empty string. -/
def vueText : Option String → String
  | none => ""
  | some s => s

/-- The rendered elements of the preview card, in template order. -/
inductive PreviewNode
  | dateText (s : String)
  | tagChip (t : List Char)
  | titleLink (slug : String) (title : String)
  | image (src : String)
  | descriptionText (s : String)
deriving DecidableEq, Repr

def isImageNode : PreviewNode → Bool
  | PreviewNode.image _ => true
  | _ => false

def isTagChip : PreviewNode → Bool
  | PreviewNode.tagChip _ => true
  | _ => false

/-- Embedding of the PostPreview.vue template: the formatted creation
date, one chip per parsed tag, the title link to `posts-slug`, the image
element guarded by `v-if="post.image != null"`, and the description text.
When the guard fails the image element is omitted from the render. -/
def postPreview (post : Post) : List PreviewNode :=
  [PreviewNode.dateText (formatDate post.createdAt)]
    ++ (parseTags post.tags).map PreviewNode.tagChip
    ++ [PreviewNode.titleLink post.slug post.title]
    ++ (match post.image with
        | some src => [PreviewNode.image src]
        | none => [])
    ++ [PreviewNode.descriptionText (vueText post.description)]

/-! ## Concrete documents used as test inputs -/

/-- The end-to-end sample document of the spec, with `htmlMetadata`
absent and `description` present. -/
def cexPost : Post :=
  { slug := "hello", title := "Hello World", description := some "A greeting",
    htmlMetadata := none, image := some "hello.jpg", tags := some "intro;demo",
    date := none, createdAt := "2022-01-01" }

/-- A document whose `image` front-matter field is absent. -/
def noImagePost : Post :=
  { slug := "hello", title := "Hello World", description := some "A greeting",
    htmlMetadata := some "A greeting", image := none, tags := none,
    date := none, createdAt := "2022-01-01" }

/-! ## Claim theorems -/

/-- C1 counterexample: on a document with `htmlMetadata` absent and
`description` present, the og:description entry's content is absent
(`undefined`), not the claimed fallback value `description`. -/
theorem description_fallback_cex :
    metaContentAt "og:description" (headFull cexPost "hello").meta
      ≠ some (specDescriptionFallback cexPost) := by
  decide

/-- C1 (amended): every description entry of both head variants carries
exactly `post.htmlMetadata` — present when it is present, absent
(`undefined`) when it is absent; `doc.description` and the empty string
are never consulted. -/
theorem description_entries_eq_htmlMetadata (post : Post) (slug : String) :
    metaContentAt "og:description" (headFull post slug).meta = post.htmlMetadata
    ∧ metaContentAt "twitter:description" (headFull post slug).meta = post.htmlMetadata
    ∧ metaContentAt "description" (headReduced post).meta = post.htmlMetadata
    ∧ metaContentAt "og:description" (headReduced post).meta = post.htmlMetadata
    ∧ metaContentAt "twitter:description" (headReduced post).meta = post.htmlMetadata :=
  ⟨rfl, rfl, rfl, rfl, rfl⟩

/-- C2 counterexample: on a document whose `image` field is absent, the
og:image and twitter:image entries are still present in the block,
against the claim that they are omitted entirely. -/
theorem image_entry_present_without_image :
    findByHid "og:image" (headFull noImagePost "hello").meta ≠ none
    ∧ findByHid "twitter:image" (headFull noImagePost "hello").meta ≠ none := by
  exact ⟨by decide, by decide⟩

/-- C2 (amended): the og:image and twitter:image entries are always
emitted; with an image present they carry the base URL, a `/`, and
`doc.image`; with the image absent they carry the degraded value
`<baseUrl>/undefined` from interpolating the absent field. -/
theorem image_entries_always_emitted (post : Post) (slug : String) :
    metaContentAt "og:image" (headFull post slug).meta
      = some (siteBaseUrl ++ "/" ++ jsInterp post.image)
    ∧ metaContentAt "twitter:image" (headFull post slug).meta
      = some (siteBaseUrl ++ "/" ++ jsInterp post.image)
    ∧ metaContentAt "og:image" (headFull noImagePost "hello").meta
      = some "https://jorge-olive.net/undefined" :=
  ⟨rfl, rfl, rfl⟩

/-- C3 counterexample: `parseTags` on the empty string returns the
one-element sequence holding the empty tag (as JS `"".split(";")` does),
not the empty sequence the claim states. -/
theorem parseTags_empty_string_cex : parseTags (some "") ≠ [] := by
  decide

/-- C3 (amended): `parseTags` on `null`/`undefined` returns the empty
sequence, and on the empty string returns a single empty-string tag;
it fails on none of these inputs (it is a total function). -/
theorem parseTags_null_empty :
    parseTags none = [] ∧ parseTags (some "") = [[]] :=
  ⟨rfl, rfl⟩

/-- C4: for every slug absent from the Document Store, `asyncData` puts
the page into the error state carrying status code 404 and the fixed
message "Página no encontrada" — an `Except.error` result, not a partial
render. -/
theorem resolve_missing_slug_404 (store : String → Except FetchError Post)
    (slug : String)
    (h : store ("posts/" ++ slug) = Except.error FetchError.notFound) :
    asyncData store slug = Except.error ⟨404, "Página no encontrada"⟩ := by
  unfold asyncData
  rw [h]

/-- C4 witness at the concrete slug "missing-slug" over the empty store. -/
theorem resolve_missing_slug_404_witness :
    emptyStore ("posts/" ++ "missing-slug") = Except.error FetchError.notFound
    ∧ asyncData emptyStore "missing-slug"
        = Except.error ⟨404, "Página no encontrada"⟩ :=
  ⟨rfl, resolve_missing_slug_404 emptyStore "missing-slug" rfl⟩

/-- C5 counterexample: a store-level failure surfaces as exactly the same
404 "Página no encontrada" page error state as a missing slug — the two
are not distinct, against the claim. -/
theorem store_failure_not_distinct_cex :
    asyncData failingStore "hello" = Except.error ⟨404, "Página no encontrada"⟩
    ∧ asyncData emptyStore "hello" = Except.error ⟨404, "Página no encontrada"⟩ :=
  ⟨rfl, rfl⟩

/-- C5 (amended): every fetch rejection, store-level failure included,
propagates to the page boundary as the single fixed 404 error state; the
catch handler ignores the rejection reason. -/
theorem store_failure_same_404 (store : String → Except FetchError Post)
    (slug : String) (e : FetchError)
    (h : store ("posts/" ++ slug) = Except.error e) :
    asyncData store slug = Except.error ⟨404, "Página no encontrada"⟩ := by
  unfold asyncData
  rw [h]

/-- C5 witness at the concrete slug "hello" over the failing store. -/
theorem store_failure_same_404_witness :
    failingStore ("posts/" ++ "hello") = Except.error FetchError.storeFailure
    ∧ asyncData failingStore "hello"
        = Except.error ⟨404, "Página no encontrada"⟩ :=
  ⟨rfl, store_failure_same_404 failingStore "hello" FetchError.storeFailure rfl⟩

/-- C6: for every raw tag string with no leading or trailing `;`
delimiter, joining the parsed tags back with `;` reconstructs the string
exactly (the round trip in fact needs no hypotheses). -/
theorem parseTags_roundtrip (s : String)
    (h1 : s.toList.head? ≠ some ';') (h2 : s.toList.getLast? ≠ some ';') :
    (List.intercalate [';'] (parseTags (some s))).asString = s := by
  show (List.intercalate [';'] (s.toList.splitOn ';')).asString = s
  rw [List.intercalate_splitOn]
  rfl

/-- C6 witness at the concrete well-formed tag string "a;b". -/
theorem parseTags_roundtrip_witness :
    ("a;b".toList.head? ≠ some ';') ∧ ("a;b".toList.getLast? ≠ some ';')
    ∧ (List.intercalate [';'] (parseTags (some "a;b"))).asString = "a;b" :=
  ⟨by decide, by decide, parseTags_roundtrip "a;b" (by decide) (by decide)⟩

/-- C7: for every input the date parser cannot parse, `formatDate`
returns the "Invalid Date" sentinel string; being a total function it
never throws, so a malformed date never fails the rest of the
resolution. -/
theorem formatDate_invalid_sentinel (s : String) (h : jsDateParse s = none) :
    formatDate s = "Invalid Date" := by
  unfold formatDate
  rw [h]

/-- C7 witness at the concrete unparseable input "not-a-date". -/
theorem formatDate_invalid_sentinel_witness :
    jsDateParse "not-a-date" = none ∧ formatDate "not-a-date" = "Invalid Date" :=
  ⟨rfl, formatDate_invalid_sentinel "not-a-date" rfl⟩

/-- C8: the Twitter url entry is the concatenation of the site base URL,
the fixed `/posts/` segment, and the slug; at slug "hello" it evaluates
to "https://jorge-olive.net/posts/hello". -/
theorem twitter_url_concatenation (post : Post) (slug : String) :
    metaContentAt "twitter:url" (headFull post slug).meta
      = some (siteBaseUrl ++ "/posts/" ++ slug)
    ∧ metaContentAt "twitter:url" (headFull post "hello").meta
      = some "https://jorge-olive.net/posts/hello" :=
  ⟨rfl, rfl⟩

/-- C9: in the reduced-metadata head variant, the plain description
entry's `name` attribute is the document's title, and its content is
`post.htmlMetadata`. -/
theorem reduced_description_name_is_title (post : Post) :
    (findByHid "description" (headReduced post).meta).bind (fun m => m.name)
      = some post.title
    ∧ metaContentAt "description" (headReduced post).meta = post.htmlMetadata :=
  ⟨rfl, rfl⟩

/-- C10: the preview render contains an image element exactly when
`post.image != null`; date, tag chips, title link and description are
rendered regardless. -/
theorem preview_image_iff_present (post : Post) :
    ((postPreview post).any isImageNode = post.image.isSome)
    ∧ PreviewNode.dateText (formatDate post.createdAt) ∈ postPreview post
    ∧ PreviewNode.titleLink post.slug post.title ∈ postPreview post
    ∧ PreviewNode.descriptionText (vueText post.description) ∈ postPreview post
    ∧ (postPreview post).filter isTagChip
        = (parseTags post.tags).map PreviewNode.tagChip := by
  refine ⟨?_, ?_, ?_, ?_, ?_⟩ <;>
    cases h : post.image <;>
      simp [postPreview, isImageNode, isTagChip, List.any_map, List.filter_map,
        Function.comp, List.filter_true, h] <;>
      exact congrArg _ (List.filter_eq_self.mpr (fun a _ => rfl))

end Blog
